import Mathlib

/-!
# Verification of the balloon-sim flight engine against its specification

Shallow embedding of `simulation.py` (the simplified vertical stepper that is
present in the source tree) together with spec-modelled definitions for the
RK4/phase core (`execute_simulation`), which is imported by `app.py` but whose
definition is not part of the source tree given here.

Machine floats of the Python source are embedded as exact rationals `ℚ`;
the transcendental parts (the cube root and π in the cross-sectional area,
`sqrt` in the relative speed) are embedded over `ℝ`, and where a quantity is
loop-invariant (the cross-sectional area: `volume_gas` never changes inside
the simulation loop) the `ℚ`-level loop takes its value as a parameter.
-/

namespace BalloonSim

/-! ## Constants (module-level constants of `simulation.py`) -/

/-- Source: `GRAVITY_ACC = 9.80665` (m/s²). -/
def GRAVITY_ACC : ℚ := 980665 / 100000

/-- Source: `R_SPECIFIC = 287.058` (J/(kg·K)), specific gas constant for dry air. -/
def R_SPECIFIC : ℚ := 287058 / 1000

/-- Source: `MOLAR_MASS_HE = 0.004002602` (kg/mol). -/
def MOLAR_MASS_HE : ℚ := 4002602 / 1000000000

/-- Source: `MOLAR_MASS_H2 = 0.002016` (kg/mol). -/
def MOLAR_MASS_H2 : ℚ := 2016 / 1000000

/-- Source: `GAS_CONSTANT_R = 8.314462618` (J/(mol·K)). -/
def GAS_CONSTANT_R : ℚ := 8314462618 / 1000000000

/-- Source: `EARTH_RADIUS = 6371000` (m). -/
def EARTH_RADIUS : ℚ := 6371000

/-! ## `calculate_initial_parameters` (simulation.py lines 56-88)

The Python function reads a parameter dict with defaults; we embed the fields
it reads as a structure carrying the same defaults.  Its float arithmetic is
embedded exactly over `ℚ`. -/

/-- One entry of the `gas_properties` dict: `{'molar_mass': …, 'density': …}`. -/
structure GasProps where
  molar_mass : ℚ
  density : ℚ
deriving DecidableEq, Repr

/-- The `gas_properties['Helium']` entry. -/
def heliumProps : GasProps := ⟨MOLAR_MASS_HE, 1786 / 10000⟩

/-- The `gas_properties['Hydrogen']` entry. -/
def hydrogenProps : GasProps := ⟨MOLAR_MASS_H2, 8988 / 100000⟩

/-- The `gas_properties` dict as a partial lookup. -/
def gasProperties (name : String) : Option GasProps :=
  if name = "Helium" then some heliumProps
  else if name = "Hydrogen" then some hydrogenProps
  else none

/-- Python's `str.capitalize()` restricted to ASCII (first character
upper-cased, the rest lower-cased); the gas names handled by the source are
ASCII. -/
def pyCapitalize (s : String) : String :=
  match s.toList with
  | [] => ""
  | c :: cs => String.mk (c.toUpper :: cs.map Char.toLower)

/-- The parameters read by `calculate_initial_parameters`, with the dict
defaults of the source (`params.get(key, default)`).  The function also reads
`buoyant_force_scalar` but never uses it. -/
structure InitParams where
  gross_mass : ℚ := 14
  lift_gas_type : String := "Helium"
  max_volume_HAB_limit : ℚ := 6
  percent_lift_gas_scalar : ℚ := 23
deriving DecidableEq, Repr

/-- The tuple `(n_gas, mass_structure, volume_gas, rho_gas, lift_capacity)`
returned on success. -/
structure InitResult where
  n_gas : ℚ
  mass_structure : ℚ
  volume_gas : ℚ
  rho_gas : ℚ
  lift_capacity : ℚ
deriving DecidableEq, Repr

/-- Source: `gas = gas_properties.get(lift_gas_type.capitalize(), gas_properties['Helium'])`:
unknown gas names silently fall back to the Helium entry. -/
def liftGas (p : InitParams) : GasProps :=
  (gasProperties (pyCapitalize p.lift_gas_type)).getD heliumProps

/-- Source: `lift_capacity = 1.02 if lift_gas_type_capitalized == 'Helium' else 1.10`. -/
def lift_capacity_of (p : InitParams) : ℚ :=
  if pyCapitalize p.lift_gas_type = "Helium" then 102 / 100 else 110 / 100

/-- Source: `volume_gas = ((gross_mass*1000)/lift_capacity*(1+percent_lift_gas_scalar/100))/1000`.
Note: `max_volume_HAB_limit` is read by the source but never applied here
(or anywhere else); the computed volume is NOT clamped. -/
def volume_gas_of (p : InitParams) : ℚ :=
  (p.gross_mass * 1000) / lift_capacity_of p * (1 + p.percent_lift_gas_scalar / 100) / 1000

/-- Source: `n_gas = (volume_gas * 1000) / 22.4`: a fixed molar volume of 22.4 L/mol. -/
def n_gas_of (p : InitParams) : ℚ :=
  (volume_gas_of p * 1000) / (224 / 10)

/-- Source: `mass_structure = gross_mass - n_gas * molar_mass_gas`. -/
def mass_structure_of (p : InitParams) : ℚ :=
  p.gross_mass - n_gas_of p * (liftGas p).molar_mass

/-- Source: `calculate_initial_parameters`: raises `ValueError` exactly when the
computed structure mass is negative, otherwise returns the tuple. -/
def calculate_initial_parameters (p : InitParams) : Except String InitResult :=
  if mass_structure_of p < 0 then
    Except.error "Mass of structure cannot be negative."
  else
    Except.ok ⟨n_gas_of p, mass_structure_of p, volume_gas_of p,
      (liftGas p).density, lift_capacity_of p⟩

/-! ## `simulate_balloon_flight_pygrib` (simulation.py lines 91-204)

The loop state that feeds back into the dynamics is `(time_sec, altitude,
z_vel)`; `x_vel`/`y_vel` are re-assigned to the constant winds every
iteration.  Latitude/longitude evolve by transcendental increments
(`180/π`, `cos`) and never feed back into the vertical dynamics, the
records' velocity fields, or the termination condition, so they are left
out of this embedding (no claim mentions them), as is the derived
`wind_direction` output (an `atan2`).  The cross-sectional area
`π·((3V)/(4π))^(2/3)` is irrational; since `volume_gas` is loop-invariant
the area is too, and the `ℚ`-level loop takes its value as the parameter
`area` (its defining formula is embedded over `ℝ` below as
`crossSectionalArea`). -/

/-- The parameters read by `simulate_balloon_flight_pygrib`, with the source's
dict defaults, plus the (loop-invariant) cross-sectional area value. -/
structure SimParams where
  temperature : ℚ
  pressure_hpa : ℚ
  u_wind : ℚ
  v_wind : ℚ
  mass_structure : ℚ
  volume_gas : ℚ
  rho_gas : ℚ
  drag_coefficient_z : ℚ := 47 / 100
  alt_chosen : ℚ := 10
  number_forecasts : ℕ := 24
  buoyant_force_scalar : ℚ := 1
  area : ℚ
deriving DecidableEq, Repr

/-- Loop state: current simulated time, raw (unclamped) altitude, vertical
velocity. -/
structure SimState where
  time_sec : ℚ
  altitude : ℚ
  z_vel : ℚ
deriving DecidableEq, Repr

/-- Source: `delta_t = 30` seconds. -/
def delta_t : ℚ := 30

/-- Source: `max_altitude = 40000` m, the hard-coded ceiling. -/
def max_altitude : ℚ := 40000

/-- Source: `max_acceleration = 2.0` m/s². -/
def max_acceleration : ℚ := 2

/-- Source: `max_velocity = 10.0` m/s. -/
def max_velocity : ℚ := 10

/-- Source: `rho_air = (pressure_hpa * 100) / (R_SPECIFIC * temperature)`. -/
def rho_air (p : SimParams) : ℚ :=
  (p.pressure_hpa * 100) / (R_SPECIFIC * p.temperature)

/-- Source: `gravity_altitude = GRAVITY_ACC * (EARTH_RADIUS / (EARTH_RADIUS + altitude))**2`. -/
def gravity_altitude (altitude : ℚ) : ℚ :=
  GRAVITY_ACC * (EARTH_RADIUS / (EARTH_RADIUS + altitude)) ^ 2

/-- Source: `buoyant_force = (rho_air - rho_gas) * volume_gas * gravity_altitude * buoyant_force_scalar`. -/
def buoyant_force (p : SimParams) (altitude : ℚ) : ℚ :=
  (rho_air p - p.rho_gas) * p.volume_gas * gravity_altitude altitude * p.buoyant_force_scalar

/-- The drag force of the loop body: `0` when `volume_gas ≤ 0`, else
`0.5 * drag_coefficient_z * rho_air * cross_sectional_area * velocity_relative²`
with `velocity_relative = sqrt(u_wind² + v_wind² + z_vel²)`; the square of the
square root is written out exactly (the operand is a sum of squares, hence
nonnegative). -/
def drag_force_of (p : SimParams) (z_vel : ℚ) : ℚ :=
  if p.volume_gas ≤ 0 then 0
  else (1 / 2) * p.drag_coefficient_z * rho_air p * p.area *
    (p.u_wind ^ 2 + p.v_wind ^ 2 + z_vel ^ 2)

/-- Source: `net_force = buoyant_force - drag_force - mass_structure * gravity_altitude`. -/
def net_force_of (p : SimParams) (s : SimState) : ℚ :=
  buoyant_force p s.altitude - drag_force_of p s.z_vel -
    p.mass_structure * gravity_altitude s.altitude

/-- Source: `acceleration_z = net_force / mass_structure`, then
`acceleration_z = max(min(acceleration_z, max_acceleration), -max_acceleration)`. -/
def acceleration_z (p : SimParams) (s : SimState) : ℚ :=
  max (min (net_force_of p s / p.mass_structure) max_acceleration) (-max_acceleration)

/-- One inner-loop iteration: time advances by `delta_t`, then
`z_vel += acceleration_z * delta_t`, `z_vel = max(min(z_vel, max_velocity), -max_velocity)`,
`altitude += z_vel * delta_t`. -/
def simStep (p : SimParams) (s : SimState) : SimState :=
  let a := acceleration_z p s
  let z1 := s.z_vel + a * delta_t
  let z2 := max (min z1 max_velocity) (-max_velocity)
  ⟨s.time_sec + delta_t, s.altitude + z2 * delta_t, z2⟩

/-- Source: `calculate_wind_frequency(u, v)`: `1 if sqrt(u²+v²) > 5.0 else 0`;
`sqrt(x) > 5 ↔ x > 25` for `x ≥ 0`, written with the squares. -/
def calculate_wind_frequency (u v : ℚ) : ℕ :=
  if u ^ 2 + v ^ 2 > 25 then 1 else 0

/-- One row of `motion_data` (the fields claims are about; `wind_direction`,
latitude and longitude are omitted, see the section comment). -/
structure MotionRecord where
  time_sec : ℚ
  altitude : ℚ
  x_vel : ℚ
  y_vel : ℚ
  z_vel : ℚ
  wind_freq : ℕ
deriving DecidableEq, Repr

/-- The `current_state` dict appended after the update:
`'Altitude (m)': max(altitude, 0.0)`, `'X_Vel': x_vel = u_wind`,
`'Y_Vel': y_vel = v_wind`, `'Z_Vel': z_vel`. -/
def mkRecord (p : SimParams) (s : SimState) : MotionRecord :=
  ⟨s.time_sec, max s.altitude 0, p.u_wind, p.v_wind, s.z_vel,
    calculate_wind_frequency p.u_wind p.v_wind⟩

/-- The mole count the specification prescribes for the initializer: the
ideal-gas law `n = P·V/(R·T)` at the fixed reference launch temperature
288.15 K and pressure 101325 Pa.  This definition follows the spec's words,
for comparison with the source's `n_gas_of`. -/
def specIdealGasMoles (volume : ℚ) : ℚ :=
  101325 * volume / (GAS_CONSTANT_R * (28815 / 100))

/-- The termination test `altitude <= 0 or altitude > max_altitude`
(on the raw altitude, after the update and append). -/
def terminateCond (s : SimState) : Bool :=
  s.altitude ≤ 0 ∨ max_altitude < s.altitude

/-- The doubly nested loop (`number_forecasts` × 20 iterations), flattened and
fuelled by the total iteration count: each iteration steps the state, appends
a record, and returns early when the termination condition holds. -/
def simLoop (p : SimParams) : ℕ → SimState → List MotionRecord
  | 0, _ => []
  | n + 1, s =>
    let s' := simStep p s
    let r := mkRecord p s'
    if terminateCond s' then [r] else r :: simLoop p n s'

/-- The state sequence of the same loop (used to state properties of the raw,
unclamped altitude the termination test reads). -/
def simStates (p : SimParams) : ℕ → SimState → List SimState
  | 0, _ => []
  | n + 1, s =>
    let s' := simStep p s
    if terminateCond s' then [s'] else s' :: simStates p n s'

/-- Initial loop state: `time_sec = 0`, `altitude = alt_chosen`, `z_vel = 0.0`. -/
def initState (p : SimParams) : SimState :=
  ⟨0, p.alt_chosen, 0⟩

/-- Source: `simulate_balloon_flight_pygrib`: the full run, at most
`number_forecasts * 20` iterations. -/
def simulate_balloon_flight (p : SimParams) : List MotionRecord :=
  simLoop p (p.number_forecasts * 20) (initState p)

/-! ## The transcendental parts of the loop body, over `ℝ`

`radius = ((3 * volume_gas) / (4 * np.pi)) ** (1/3)` and
`cross_sectional_area = np.pi * radius ** 2`;
`velocity_relative = math.sqrt(u_wind**2 + v_wind**2 + z_vel**2)`. -/

/-- Source: `np.pi * (((3 * volume) / (4 * np.pi)) ** (1/3)) ** 2`. -/
noncomputable def crossSectionalArea (volume : ℝ) : ℝ :=
  Real.pi * (((3 * volume) / (4 * Real.pi)) ^ ((1 : ℝ) / 3)) ^ 2

/-- Source: `math.sqrt(u_wind**2 + v_wind**2 + z_vel**2)`. -/
noncomputable def velocityRelative (u v w : ℝ) : ℝ :=
  Real.sqrt (u ^ 2 + v ^ 2 + w ^ 2)

/-- The drag force exactly as in the loop body, over `ℝ`:
`0.5 * drag_coefficient_z * rho_air * cross_sectional_area * velocity_relative ** 2`
(and `0.0` when `volume_gas <= 0`). -/
noncomputable def dragForce (cd rho volume u v w : ℝ) : ℝ :=
  if volume ≤ 0 then 0
  else (1 / 2) * cd * rho * crossSectionalArea volume * velocityRelative u v w ^ 2

/-- Source: `net_force = buoyant_force - drag_force - mass_structure * gravity_altitude`,
over `ℝ`: the drag enters the vertical balance with a negative sign. -/
def netForceR (buoyant drag mass gravity : ℝ) : ℝ :=
  buoyant - drag - mass * gravity

/-! ## A concrete landing configuration

With zero wind, `buoyant_force_scalar = 0`, unit structure mass and initial
altitude 10 m the net force is pure weight: the acceleration clamps to −2,
the velocity clamps to −10 m/s and the first iteration already drives the
altitude to 10 − 10·30 = −290 ≤ 0, so the run terminates after one record. -/

def landingParams : SimParams :=
  { temperature := 250, pressure_hpa := 1000, u_wind := 0, v_wind := 0,
    mass_structure := 1, volume_gas := 6, rho_gas := 1786 / 10000,
    buoyant_force_scalar := 0, number_forecasts := 1, area := 1 }

/-! ## The RK4 integrator of the missing core

`app.py` imports `execute_simulation` from the `simulation` module, but no
`execute_simulation` (nor the RK4/phase engine §4.5–4.6 of the spec
describes) is present in the source tree: only its caller exists.  The
definitions below are therefore spec-modelled. -/

/-- Modelled from the spec: `rk4Step(state, derivative_fn, dt, t)` of the
missing Integrator component (spec §4.5) — the classical 4-stage Runge–Kutta
update, generic over any state vector (a `ℚ`-module) and any derivative
function, computing `k1..k4` sequentially as a program would. -/
def rk4Step {σ : Type*} [AddCommGroup σ] [Module ℚ σ]
    (derivative_fn : ℚ → σ → σ) (dt t : ℚ) (state : σ) : σ :=
  let k1 := derivative_fn t state
  let k2 := derivative_fn (t + dt / 2) (state + (dt / 2) • k1)
  let k3 := derivative_fn (t + dt / 2) (state + (dt / 2) • k2)
  let k4 := derivative_fn (t + dt) (state + dt • k3)
  state + (dt / 6) • (k1 + (2 : ℚ) • k2 + (2 : ℚ) • k3 + k4)

/-! ## The phase machine of the missing core (spec §4.6), spec-modelled -/

/-- Modelled from the spec: the `Phase` enum of the missing FlightSimulator
(spec §3): Ascending, Descending, Landed, monotone one-way transitions. -/
inductive Phase where
  | Ascending
  | Descending
  | Landed
deriving DecidableEq, Repr

/-- Modelled from the spec: the per-step state of the missing FlightSimulator
that the burst claim is about: flight phase, altitude, current gas volume. -/
structure BurstState where
  phase : Phase
  altitude : ℚ
  volume : ℚ
deriving DecidableEq, Repr

/-- Modelled from the spec: the fixed data of a run of the missing
FlightSimulator — the atmosphere sampled by altitude (temperature in K,
pressure in Pa), gas moles, the max-volume limit, the ascent rate seed,
the parachute descent rate, and the time step. -/
structure BurstModel where
  temperature : ℚ → ℚ
  pressure : ℚ → ℚ
  n_gas : ℚ
  maxVolume : ℚ
  ascentRate : ℚ
  descentRate : ℚ
  dt : ℚ

/-- Modelled from the spec: the unclamped ideal-gas volume `V = n·R·T/P`
at a given altitude (spec §4.6). -/
def unclampedVolume (m : BurstModel) (h : ℚ) : ℚ :=
  m.n_gas * GAS_CONSTANT_R * m.temperature h / m.pressure h

/-- Modelled from the spec: air density `ρ = P/(R_specific·T)` (spec §4.2). -/
def airDensity (m : BurstModel) (h : ℚ) : ℚ :=
  m.pressure h / (R_SPECIFIC * m.temperature h)

/-- Modelled from the spec: one step of the missing FlightSimulator state
machine (spec §4.6): while Ascending the balloon rises at the ascent rate
and the volume is updated via the ideal-gas law clamped to max-volume; the
burst transition to Descending is triggered when the volume reaches the
max-volume limit; while Descending the balloon sinks at the parachute
descent rate with the volume no longer updated, and lands (terminally)
when the altitude reaches 0. -/
def burstStep (m : BurstModel) (s : BurstState) : BurstState :=
  if s.phase = Phase.Ascending then
    let h := s.altitude + m.ascentRate * m.dt
    let V := min (unclampedVolume m h) m.maxVolume
    if m.maxVolume ≤ V then ⟨Phase.Descending, h, V⟩ else ⟨Phase.Ascending, h, V⟩
  else if s.phase = Phase.Descending then
    let h := s.altitude - m.descentRate * m.dt
    if h ≤ 0 then ⟨Phase.Landed, 0, s.volume⟩ else ⟨Phase.Descending, h, s.volume⟩
  else s

/-- Modelled from the spec: the state after `k` steps. -/
def burstTraj (m : BurstModel) (s0 : BurstState) (k : ℕ) : BurstState :=
  (burstStep m)^[k] s0

/-- A concrete atmosphere for instantiating the burst theorem: pressure
strictly decreasing and positive over all of `ℚ` at constant unit
temperature, so density strictly decreases with altitude. -/
def witnessPressure (h : ℚ) : ℚ :=
  if h < 0 then 1 - h else 1 / (1 + h)

/-- A concrete burst model over that atmosphere. -/
def witnessModel : BurstModel :=
  { temperature := fun _ => 1, pressure := witnessPressure, n_gas := 1,
    maxVolume := 10, ascentRate := 1, descentRate := 1, dt := 1 }

/-- Its launch state: Ascending, altitude 0, volume clamped from the
ideal-gas law. -/
def witnessInit : BurstState :=
  ⟨Phase.Ascending, 0, min (unclampedVolume witnessModel 0) witnessModel.maxVolume⟩

/-! ## Helper lemmas -/

theorem pyCapitalize_Helium : pyCapitalize "Helium" = "Helium" := rfl

theorem pyCapitalize_Argon : pyCapitalize "Argon" = "Argon" := rfl

/-- On the non-error branch the initializer returns the computed tuple. -/
theorem calculate_initial_parameters_ok (p : InitParams)
    (h : ¬ mass_structure_of p < 0) :
    calculate_initial_parameters p =
      Except.ok ⟨n_gas_of p, mass_structure_of p, volume_gas_of p,
        (liftGas p).density, lift_capacity_of p⟩ := by
  simp [calculate_initial_parameters, h]

/-- The default configuration has nonnegative structure mass. -/
theorem mass_structure_default_nonneg : ¬ mass_structure_of {} < 0 := by
  norm_num [mass_structure_of, n_gas_of, volume_gas_of, lift_capacity_of,
    liftGas, gasProperties, pyCapitalize_Helium, heliumProps, MOLAR_MASS_HE]

/-- The default configuration's computed volume. -/
theorem volume_gas_default : volume_gas_of {} = 287 / 17 := by
  norm_num [volume_gas_of, lift_capacity_of, pyCapitalize_Helium]

/-! ## Claim C3 -/

/-- Claim C3 (code_bug exhibit): the claim says the initializer clamps the
computed volume to the max-volume limit, so that volume ≤ max-volume always
holds.  The source reads `max_volume_HAB_limit` but never applies it: at the
source's own default configuration (gross mass 14 kg, Helium, limit 6 m³,
percent scalar 23) initialization succeeds and returns
`volume_gas = 287/17 ≈ 16.88 m³`, strictly above the 6 m³ limit. -/
theorem initializer_volume_exceeds_limit :
    (calculate_initial_parameters {}).toOption.map InitResult.volume_gas
        = some (287 / 17) ∧
    ({} : InitParams).max_volume_HAB_limit < 287 / 17 := by
  rw [calculate_initial_parameters_ok {} mass_structure_default_nonneg]
  refine ⟨?_, by norm_num⟩
  simp [Except.toOption, volume_gas_default]

/-! ## Claim C4 -/

/-- Claim C4 (counterexample): the claim says any lift-gas type other than
Helium or Hydrogen makes initialization fail with a configuration error.
`"Argon"` is neither, yet `calculate_initial_parameters` succeeds, silently
substituting the Helium gas-property entry (`gas_properties.get(...,
gas_properties['Helium'])`): the returned `rho_gas` is Helium's density. -/
theorem initializer_argon_no_error :
    pyCapitalize "Argon" ≠ "Helium" ∧ pyCapitalize "Argon" ≠ "Hydrogen" ∧
    (calculate_initial_parameters { lift_gas_type := "Argon" }).toOption.map
        InitResult.rho_gas = some heliumProps.density := by
  refine ⟨by rw [pyCapitalize_Argon]; decide, by rw [pyCapitalize_Argon]; decide, ?_⟩
  have hg : liftGas { lift_gas_type := "Argon" } = heliumProps := by
    simp [liftGas, gasProperties, pyCapitalize_Argon]
  have hlc : lift_capacity_of { lift_gas_type := "Argon" } = 110 / 100 := by
    simp [lift_capacity_of, pyCapitalize_Argon]
  have hm : ¬ mass_structure_of { lift_gas_type := "Argon" } < 0 := by
    norm_num [mass_structure_of, n_gas_of, volume_gas_of, hlc, hg,
      heliumProps, MOLAR_MASS_HE]
  rw [calculate_initial_parameters_ok _ hm, hg]
  simp [Except.toOption]

/-- Claim C4 (amended): for a lift-gas type that capitalizes to neither
`"Helium"` nor `"Hydrogen"`, the initializer proceeds without any
gas-type error: it silently uses the Helium gas-property entry (molar mass
0.004002602, density 0.1786) together with the non-Helium lift capacity
1.10, and the only error it can still raise is the negative-structure-mass
one. -/
theorem initializer_unknown_gas_fallback (p : InitParams)
    (h1 : pyCapitalize p.lift_gas_type ≠ "Helium")
    (h2 : pyCapitalize p.lift_gas_type ≠ "Hydrogen") :
    liftGas p = heliumProps ∧ lift_capacity_of p = 110 / 100 ∧
    ∀ e, calculate_initial_parameters p = Except.error e →
      mass_structure_of p < 0 := by
  refine ⟨?_, ?_, ?_⟩
  · simp [liftGas, gasProperties, h1, h2]
  · simp [lift_capacity_of, h1]
  · intro e he
    by_cases hm : mass_structure_of p < 0
    · exact hm
    · rw [calculate_initial_parameters_ok p hm] at he
      exact absurd he (by simp)

/-- Claim C4 (witness for the amended theorem), at the gas type `"Argon"`. -/
theorem initializer_unknown_gas_fallback_witness :
    liftGas { lift_gas_type := "Argon" } = heliumProps ∧
    lift_capacity_of { lift_gas_type := "Argon" } = 110 / 100 ∧
    ∀ e, calculate_initial_parameters { lift_gas_type := "Argon" }
        = Except.error e →
      mass_structure_of { lift_gas_type := "Argon" } < 0 :=
  initializer_unknown_gas_fallback { lift_gas_type := "Argon" }
    (by rw [pyCapitalize_Argon]; decide) (by rw [pyCapitalize_Argon]; decide)

/-! ## Claim C7 -/

/-- Claim C7: initialization raises its error exactly when the computed
structure mass (gross mass minus lift-gas mass) is negative, and any
successfully returned tuple has `mass_structure ≥ 0` (it equals the computed
structure mass). -/
theorem initializer_error_iff_negative_mass (p : InitParams) :
    ((∃ e, calculate_initial_parameters p = Except.error e) ↔
      mass_structure_of p < 0) ∧
    ∀ r, calculate_initial_parameters p = Except.ok r →
      r.mass_structure = mass_structure_of p ∧ 0 ≤ r.mass_structure := by
  by_cases hm : mass_structure_of p < 0
  · refine ⟨⟨fun _ => hm, fun _ => ?_⟩, fun r hr => ?_⟩
    · exact ⟨"Mass of structure cannot be negative.",
        by simp [calculate_initial_parameters, hm]⟩
    · rw [calculate_initial_parameters] at hr
      simp [hm] at hr
  · rw [calculate_initial_parameters_ok p hm]
    refine ⟨⟨fun ⟨e, he⟩ => by simp at he, fun h => absurd h hm⟩, fun r hr => ?_⟩
    obtain rfl : _ = r := Except.ok.inj hr
    exact ⟨rfl, not_lt.mp hm⟩

/-- Claim C7 (witness): the default configuration initializes successfully and
the theorem yields its nonnegative structure mass. -/
theorem initializer_error_iff_negative_mass_witness :
    (⟨n_gas_of {}, mass_structure_of {}, volume_gas_of {},
        (liftGas ({} : InitParams)).density,
        lift_capacity_of {}⟩ : InitResult).mass_structure
      = mass_structure_of {} ∧
    0 ≤ (⟨n_gas_of {}, mass_structure_of {}, volume_gas_of {},
        (liftGas ({} : InitParams)).density,
        lift_capacity_of {}⟩ : InitResult).mass_structure :=
  (initializer_error_iff_negative_mass {}).2 _
    (calculate_initial_parameters_ok {} mass_structure_default_nonneg)

/-! ## Claim C8 -/

/-- Claim C8 (counterexample): the claim says moles are derived via the
ideal-gas law at 288.15 K and 101325 Pa.  At the default configuration the
source's mole count (fixed molar volume 22.4 L/mol) differs from that
ideal-gas value. -/
theorem initializer_moles_differ_from_ideal_gas :
    n_gas_of {} ≠ specIdealGasMoles (volume_gas_of {}) := by
  norm_num [n_gas_of, volume_gas_default, specIdealGasMoles, GAS_CONSTANT_R]

/-- Claim C8 (amended): the initializer derives the gas mole count from the
computed volume via the fixed molar volume 22.4 L/mol —
`n_gas = (volume_gas * 1000) / 22.4` — not via the ideal-gas law at
288.15 K / 101325 Pa. -/
theorem initializer_moles_molar_volume (p : InitParams) (r : InitResult)
    (h : calculate_initial_parameters p = Except.ok r) :
    r.n_gas = r.volume_gas * 1000 / (224 / 10) := by
  by_cases hm : mass_structure_of p < 0
  · rw [calculate_initial_parameters] at h
    simp [hm] at h
  · rw [calculate_initial_parameters_ok p hm] at h
    obtain rfl : _ = r := Except.ok.inj h
    rfl

/-- Claim C8 (witness for the amended theorem), at the default configuration. -/
theorem initializer_moles_molar_volume_witness :
    (⟨n_gas_of {}, mass_structure_of {}, volume_gas_of {},
        (liftGas ({} : InitParams)).density,
        lift_capacity_of {}⟩ : InitResult).n_gas
      = (⟨n_gas_of {}, mass_structure_of {}, volume_gas_of {},
        (liftGas ({} : InitParams)).density,
        lift_capacity_of {}⟩ : InitResult).volume_gas * 1000 / (224 / 10) :=
  initializer_moles_molar_volume {} _
    (calculate_initial_parameters_ok {} mass_structure_default_nonneg)

/-! ## Loop lemmas -/

/-- When the post-step state trips the termination test, the loop appends
that record and returns. -/
theorem simLoop_term (p : SimParams) (n : ℕ) (s : SimState)
    (h : terminateCond (simStep p s) = true) :
    simLoop p (n + 1) s = [mkRecord p (simStep p s)] := by
  simp [simLoop, h]

/-- State-sequence version of `simLoop_term`. -/
theorem simStates_term (p : SimParams) (n : ℕ) (s : SimState)
    (h : terminateCond (simStep p s) = true) :
    simStates p (n + 1) s = [simStep p s] := by
  simp [simStates, h]

/-- The loop makes at most `fuel` iterations. -/
theorem simStates_length_le (p : SimParams) :
    ∀ (n : ℕ) (s : SimState), (simStates p n s).length ≤ n := by
  intro n
  induction n with
  | zero => intro s; simp [simStates]
  | succ n ih =>
    intro s
    rw [simStates]
    by_cases h : terminateCond (simStep p s) = true
    · simp [h]
    · simp only [Bool.not_eq_true] at h
      simp only [h, if_false, List.length_cons]
      exact Nat.succ_le_succ (ih (simStep p s))

/-- Each record is the image of the corresponding state. -/
theorem simLoop_eq_map (p : SimParams) :
    ∀ (n : ℕ) (s : SimState),
      simLoop p n s = (simStates p n s).map (mkRecord p) := by
  intro n
  induction n with
  | zero => intro s; simp [simLoop, simStates]
  | succ n ih =>
    intro s
    rw [simLoop, simStates]
    by_cases h : terminateCond (simStep p s) = true
    · simp [h]
    · simp only [Bool.not_eq_true] at h
      simp [h, ih (simStep p s)]

/-- Time advances by exactly `delta_t` per retained state. -/
theorem simStates_time (p : SimParams) :
    ∀ (n : ℕ) (s : SimState) (i : ℕ), i < (simStates p n s).length →
      ((simStates p n s).getD i (initState p)).time_sec
        = s.time_sec + delta_t * (i + 1) := by
  intro n
  induction n with
  | zero => intro s i hi; simp [simStates] at hi
  | succ n ih =>
    intro s i hi
    rw [simStates] at hi ⊢
    by_cases h : terminateCond (simStep p s) = true
    · rw [if_pos h] at hi ⊢
      obtain rfl : i = 0 := Nat.lt_one_iff.mp (by simpa using hi)
      simp [simStep]
    · rw [if_neg h] at hi ⊢
      match i with
      | 0 => simp [simStep]
      | j + 1 =>
        rw [List.getD_cons_succ]
        rw [ih (simStep p s) j (by simpa using Nat.lt_of_succ_lt_succ hi)]
        simp [simStep]
        ring

/-- Early exit: a retained state satisfying the termination test is the last
one. -/
theorem simStates_early (p : SimParams) :
    ∀ (n : ℕ) (s : SimState) (i : ℕ), i < (simStates p n s).length →
      terminateCond ((simStates p n s).getD i (initState p)) = true →
      i = (simStates p n s).length - 1 := by
  intro n
  induction n with
  | zero => intro s i hi; simp [simStates] at hi
  | succ n ih =>
    intro s i hi hc
    rw [simStates] at hi hc ⊢
    by_cases h : terminateCond (simStep p s) = true
    · rw [if_pos h] at hi ⊢
      obtain rfl : i = 0 := Nat.lt_one_iff.mp (by simpa using hi)
      simp
    · rw [if_neg h] at hi hc ⊢
      match i with
      | 0 =>
        rw [List.getD_cons_zero] at hc
        exact absurd hc h
      | j + 1 =>
        rw [List.getD_cons_succ] at hc
        have hj : j < (simStates p n (simStep p s)).length :=
          Nat.lt_of_succ_lt_succ (by simpa using hi)
        have := ih (simStep p s) j hj hc
        simp only [List.length_cons]
        omega

/-- The updated vertical velocity is clamped to `[-max_velocity, max_velocity]`. -/
theorem simStep_z_vel_bounds (p : SimParams) (s : SimState) :
    -max_velocity ≤ (simStep p s).z_vel ∧ (simStep p s).z_vel ≤ max_velocity := by
  refine ⟨le_max_right _ _, max_le (min_le_right _ _) (by norm_num [max_velocity])⟩

/-- Every record's vertical velocity is a clamped one. -/
theorem simLoop_z_vel_bounds (p : SimParams) :
    ∀ (n : ℕ) (s : SimState), ∀ r ∈ simLoop p n s,
      -max_velocity ≤ r.z_vel ∧ r.z_vel ≤ max_velocity := by
  intro n
  induction n with
  | zero => intro s r hr; simp [simLoop] at hr
  | succ n ih =>
    intro s r hr
    rw [simLoop] at hr
    by_cases h : terminateCond (simStep p s) = true
    · rw [if_pos h, List.mem_singleton] at hr
      subst hr
      exact simStep_z_vel_bounds p s
    · rw [if_neg h, List.mem_cons] at hr
      rcases hr with rfl | hr
      · exact simStep_z_vel_bounds p s
      · exact ih (simStep p s) r hr

/-! ## The concrete landing run -/

theorem landingStep :
    simStep landingParams (initState landingParams) = ⟨30, -290, -10⟩ := by
  norm_num [simStep, initState, landingParams, acceleration_z, net_force_of,
    buoyant_force, drag_force_of, rho_air, gravity_altitude, delta_t,
    max_acceleration, max_velocity, GRAVITY_ACC, R_SPECIFIC, EARTH_RADIUS]

theorem landingStep_term :
    terminateCond (simStep landingParams (initState landingParams)) = true := by
  rw [landingStep]
  norm_num [terminateCond, max_altitude]

theorem landingRun :
    simulate_balloon_flight landingParams = [⟨30, 0, 0, 0, -10, 0⟩] := by
  have h20 : landingParams.number_forecasts * 20 = 19 + 1 := rfl
  rw [simulate_balloon_flight, h20, simLoop_term _ _ _ landingStep_term,
    landingStep]
  norm_num [mkRecord, calculate_wind_frequency, landingParams]

theorem landingStatesRun :
    simStates landingParams (landingParams.number_forecasts * 20)
      (initState landingParams) = [⟨30, -290, -10⟩] := by
  have h20 : landingParams.number_forecasts * 20 = 19 + 1 := rfl
  rw [h20, simStates_term _ _ _ landingStep_term, landingStep]

/-! ## Claim C6 -/

/-- Claim C6 (counterexample): the claim says the landing record has all
velocity components equal to zero.  In the concrete landing run above the
landing condition fires (post-step altitude −290 ≤ 0), the run stops with
that record as the last one and its altitude is clamped to 0 — but its
vertical velocity is −10, not 0. -/
theorem landing_record_velocity_not_zero :
    (simStep landingParams (initState landingParams)).altitude ≤ 0 ∧
    simulate_balloon_flight landingParams = [⟨30, 0, 0, 0, -10, 0⟩] ∧
    ((-10 : ℚ) ≠ 0) := by
  refine ⟨?_, landingRun, by norm_num⟩
  rw [landingStep]
  norm_num

/-- Claim C6 (amended): when the landing condition (post-step altitude ≤ 0)
triggers, the loop stops and the landing step is the last retained record,
whose altitude is clamped to ≥ 0; but the velocity components are not
zeroed — the horizontal components stay equal to the wind components and the
vertical component keeps its current (clamped) value. -/
theorem landing_truncates_and_clamps (p : SimParams) (n : ℕ) (s : SimState)
    (h : (simStep p s).altitude ≤ 0) :
    simLoop p (n + 1) s = [mkRecord p (simStep p s)] ∧
    (mkRecord p (simStep p s)).altitude = max (simStep p s).altitude 0 ∧
    0 ≤ (mkRecord p (simStep p s)).altitude ∧
    (mkRecord p (simStep p s)).x_vel = p.u_wind ∧
    (mkRecord p (simStep p s)).y_vel = p.v_wind ∧
    (mkRecord p (simStep p s)).z_vel = (simStep p s).z_vel := by
  refine ⟨simLoop_term p n s ?_, rfl, le_max_right _ _, rfl, rfl, rfl⟩
  simp [terminateCond, h]

/-- Claim C6 (witness for the amended theorem), on the concrete landing run. -/
theorem landing_truncates_and_clamps_witness :
    simLoop landingParams (19 + 1) (initState landingParams)
        = [mkRecord landingParams
            (simStep landingParams (initState landingParams))] ∧
    (mkRecord landingParams
        (simStep landingParams (initState landingParams))).altitude
      = max (simStep landingParams (initState landingParams)).altitude 0 ∧
    0 ≤ (mkRecord landingParams
        (simStep landingParams (initState landingParams))).altitude ∧
    (mkRecord landingParams
        (simStep landingParams (initState landingParams))).x_vel
      = landingParams.u_wind ∧
    (mkRecord landingParams
        (simStep landingParams (initState landingParams))).y_vel
      = landingParams.v_wind ∧
    (mkRecord landingParams
        (simStep landingParams (initState landingParams))).z_vel
      = (simStep landingParams (initState landingParams)).z_vel :=
  landing_truncates_and_clamps landingParams 19 (initState landingParams)
    (by rw [landingStep]; norm_num)

/-! ## Claim C9 -/

/-- Claim C9: the loop always terminates after at most
`number_forecasts * 20` records, each 30 simulated seconds apart
(`time = delta_t * (i+1)`), the records are the per-state images of the
retained states, and the run is truncated as soon as the raw altitude is
≤ 0 or exceeds the hard-coded 40000 m ceiling: any retained state
satisfying that condition is the last one. -/
theorem simulation_terminates_and_truncates (p : SimParams) :
    (simulate_balloon_flight p).length ≤ p.number_forecasts * 20 ∧
    simulate_balloon_flight p
      = (simStates p (p.number_forecasts * 20) (initState p)).map
          (mkRecord p) ∧
    (∀ i, i < (simulate_balloon_flight p).length →
      ((simulate_balloon_flight p).getD i
          (mkRecord p (initState p))).time_sec = delta_t * (i + 1)) ∧
    (∀ i, i < (simStates p (p.number_forecasts * 20) (initState p)).length →
      ((simStates p (p.number_forecasts * 20) (initState p)).getD i
            (initState p)).altitude ≤ 0 ∨
        max_altitude <
          ((simStates p (p.number_forecasts * 20) (initState p)).getD i
            (initState p)).altitude →
      i = (simStates p (p.number_forecasts * 20) (initState p)).length - 1) := by
  have hmap := simLoop_eq_map p (p.number_forecasts * 20) (initState p)
  refine ⟨?_, hmap, ?_, ?_⟩
  · rw [simulate_balloon_flight, hmap, List.length_map]
    exact simStates_length_le p _ _
  · intro i hi
    rw [simulate_balloon_flight, hmap] at hi ⊢
    rw [List.length_map] at hi
    rw [List.getD_map _ _ (mkRecord p)]
    have := simStates_time p (p.number_forecasts * 20) (initState p) i hi
    simp only [mkRecord]
    rw [this]
    simp [initState]
  · intro i hi hc
    refine simStates_early p (p.number_forecasts * 20) (initState p) i hi ?_
    simp only [terminateCond, decide_eq_true_eq]
    exact hc

/-- Claim C9 (witness), on the concrete landing run: one record, emitted at
30 s, whose underlying state satisfies the cutoff and is indeed the last. -/
theorem simulation_terminates_and_truncates_witness :
    (simulate_balloon_flight landingParams).length
        ≤ landingParams.number_forecasts * 20 ∧
    ((simulate_balloon_flight landingParams).getD 0
        (mkRecord landingParams (initState landingParams))).time_sec
      = delta_t * (0 + 1) ∧
    (0 : ℕ) = (simStates landingParams (landingParams.number_forecasts * 20)
        (initState landingParams)).length - 1 := by
  have h := simulation_terminates_and_truncates landingParams
  refine ⟨h.1, h.2.2.1 0 ?_, h.2.2.2 0 ?_ ?_⟩
  · rw [landingRun]; norm_num
  · rw [landingStatesRun]; norm_num
  · rw [landingStatesRun]
    norm_num [max_altitude]

/-! ## Claim C10 -/

/-- Claim C10: at every iteration the vertical acceleration is clamped to
`[-2, 2]` and the vertical velocity to `[-10, 10]`, so every emitted record
has `|Z_Vel| ≤ 10` — for every parameter set, fuel and start state, i.e.
regardless of the force balance. -/
theorem vertical_clamps_bound_records :
    (∀ (p : SimParams) (s : SimState),
      -max_acceleration ≤ acceleration_z p s ∧
        acceleration_z p s ≤ max_acceleration) ∧
    (∀ (p : SimParams) (n : ℕ) (s : SimState), ∀ r ∈ simLoop p n s,
      -max_velocity ≤ r.z_vel ∧ r.z_vel ≤ max_velocity) := by
  constructor
  · intro p s
    exact ⟨le_max_right _ _,
      max_le (min_le_right _ _) (by norm_num [max_acceleration])⟩
  · intro p n s r hr
    exact simLoop_z_vel_bounds p n s r hr

/-- Claim C10 (witness): the record of the concrete landing run has its
vertical velocity inside `[-10, 10]`. -/
theorem vertical_clamps_bound_records_witness :
    -max_velocity ≤ (⟨30, 0, 0, 0, -10, 0⟩ : MotionRecord).z_vel ∧
    (⟨30, 0, 0, 0, -10, 0⟩ : MotionRecord).z_vel ≤ max_velocity :=
  vertical_clamps_bound_records.2 landingParams
    (landingParams.number_forecasts * 20) (initState landingParams)
    ⟨30, 0, 0, 0, -10, 0⟩
    (by rw [← simulate_balloon_flight, landingRun]; simp)

/-! ## Claim C5 -/

/-- The cross-sectional area is never negative. -/
theorem crossSectionalArea_nonneg (volume : ℝ) : 0 ≤ crossSectionalArea volume :=
  mul_nonneg Real.pi_pos.le (sq_nonneg _)

/-- The cross-sectional area is positive for positive volume. -/
theorem crossSectionalArea_pos (volume : ℝ) (h : 0 < volume) :
    0 < crossSectionalArea volume := by
  rw [crossSectionalArea]
  have hpi := Real.pi_pos
  positivity

/-- Claim C5 (counterexample): the claim says the drag is zero whenever the
relative velocity (balloon velocity minus wind) is zero and otherwise
opposes it.  The code sets the horizontal balloon velocity equal to the wind
(`x_vel = u_wind`, `y_vel = v_wind`), so at `u_wind = 3`, `v_wind = 4`,
`z_vel = 0` the relative velocity is exactly zero — yet the drag computed by
the code from `sqrt(u_wind² + v_wind² + z_vel²)` is nonzero (at
`C_d = 0.47`, `ρ_air = 1`, `volume_gas = 6`). -/
theorem drag_nonzero_at_zero_relative_velocity :
    dragForce (47 / 100) 1 6 3 4 0 ≠ 0 := by
  have hA : 0 < crossSectionalArea 6 := crossSectionalArea_pos 6 (by norm_num)
  rw [dragForce, if_neg (by norm_num)]
  have hv : velocityRelative 3 4 0 ^ 2 = 25 := by
    rw [velocityRelative,
      Real.sq_sqrt (by positivity : (0:ℝ) ≤ 3 ^ 2 + 4 ^ 2 + 0 ^ 2)]
    norm_num
  rw [hv]
  have : (0:ℝ) < 1 / 2 * (47 / 100) * 1 * crossSectionalArea 6 * 25 := by
    nlinarith [hA]
  exact ne_of_gt this

/-- Claim C5 (amended): the drag force of the loop body has magnitude
`0.5·C_d·ρ_air·A·s²` where `s² = u_wind² + v_wind² + z_vel²` is the squared
wind-plus-vertical speed (not the balloon-minus-wind relative speed, which
the code's own velocity assignments make `(0, 0, z_vel)`); it is `0` when
`volume_gas ≤ 0`, it vanishes when wind and vertical velocity are all zero,
it is never negative, and it enters the net vertical force with a negative
sign — i.e. it pushes downward regardless of the direction of motion,
during descent as well as ascent. -/
theorem drag_force_characterization (cd rho volume u v w : ℝ)
    (hcd : 0 ≤ cd) (hrho : 0 ≤ rho) :
    (0 < volume →
      dragForce cd rho volume u v w
        = 1 / 2 * cd * rho * crossSectionalArea volume * (u ^ 2 + v ^ 2 + w ^ 2)) ∧
    (volume ≤ 0 → dragForce cd rho volume u v w = 0) ∧
    (u = 0 → v = 0 → w = 0 → dragForce cd rho volume u v w = 0) ∧
    0 ≤ dragForce cd rho volume u v w ∧
    ∀ b m g, netForceR b (dragForce cd rho volume u v w) m g ≤ b - m * g := by
  have hsq : velocityRelative u v w ^ 2 = u ^ 2 + v ^ 2 + w ^ 2 := by
    rw [velocityRelative, sq,
      Real.mul_self_sqrt (by positivity : (0:ℝ) ≤ u ^ 2 + v ^ 2 + w ^ 2)]
  have hnn : 0 ≤ dragForce cd rho volume u v w := by
    rw [dragForce]
    by_cases hV : volume ≤ 0
    · rw [if_pos hV]
    · rw [if_neg hV, hsq]
      have h1 : 0 ≤ 1 / 2 * cd * rho := by positivity
      have h2 : 0 ≤ crossSectionalArea volume := crossSectionalArea_nonneg volume
      positivity
  refine ⟨fun hV => ?_, fun hV => by rw [dragForce, if_pos hV], ?_, hnn, ?_⟩
  · rw [dragForce, if_neg (not_le.mpr hV), hsq]
  · intro hu hv hw
    subst hu; subst hv; subst hw
    rw [dragForce]
    by_cases hV : volume ≤ 0
    · rw [if_pos hV]
    · rw [if_neg hV, hsq]
      ring
  · intro b m g
    rw [netForceR]
    linarith [hnn]

/-- Claim C5 (witness for the amended theorem) at `C_d = 0.47`, `ρ_air = 1`,
`volume_gas = 6`, wind `(3, 4)` and a descending vertical velocity `−5`. -/
theorem drag_force_characterization_witness :
    ((0:ℝ) < 6 →
      dragForce (47 / 100) 1 6 3 4 (-5)
        = 1 / 2 * (47 / 100) * 1 * crossSectionalArea 6
            * ((3:ℝ) ^ 2 + 4 ^ 2 + (-5) ^ 2)) ∧
    ((6:ℝ) ≤ 0 → dragForce (47 / 100) 1 6 3 4 (-5) = 0) ∧
    ((3:ℝ) = 0 → (4:ℝ) = 0 → (-5:ℝ) = 0 → dragForce (47 / 100) 1 6 3 4 (-5) = 0) ∧
    0 ≤ dragForce (47 / 100) 1 6 3 4 (-5) ∧
    ∀ b m g, netForceR b (dragForce (47 / 100) 1 6 3 4 (-5)) m g ≤ b - m * g :=
  drag_force_characterization (47 / 100) 1 6 3 4 (-5) (by norm_num) (by norm_num)

/-! ## Claim C1 -/

/-- Claim C1 (spec-modelled): the integrator advances the state by the
classical 4-stage Runge–Kutta update: for every state, derivative function,
step size `dt` and time `t`, the new state equals
`state + (dt/6)·(k1 + 2k2 + 2k3 + k4)` with `k1` evaluated at `t`, `k2` and
`k3` at `t + dt/2`, and `k4` at `t + dt`, each at the corresponding
intermediate state. -/
theorem rk4Step_classical_update {σ : Type*} [AddCommGroup σ] [Module ℚ σ]
    (derivative_fn : ℚ → σ → σ) (dt t : ℚ) (state : σ) :
    rk4Step derivative_fn dt t state
      = state + (dt / 6) •
          (derivative_fn t state
            + (2 : ℚ) • derivative_fn (t + dt / 2)
                (state + (dt / 2) • derivative_fn t state)
            + (2 : ℚ) • derivative_fn (t + dt / 2)
                (state + (dt / 2) • derivative_fn (t + dt / 2)
                  (state + (dt / 2) • derivative_fn t state))
            + derivative_fn (t + dt)
                (state + dt • derivative_fn (t + dt / 2)
                  (state + (dt / 2) • derivative_fn (t + dt / 2)
                    (state + (dt / 2) • derivative_fn t state)))) := rfl

/-! ## Claim C2: lemmas about the spec-modelled phase machine -/

/-- Positive temperature and pressure give positive density. -/
theorem airDensity_pos (m : BurstModel) (hT : ∀ h, 0 < m.temperature h)
    (hP : ∀ h, 0 < m.pressure h) (h : ℚ) : 0 < airDensity m h := by
  rw [airDensity]
  have h1 := hT h
  have h2 := hP h
  have h3 : (0:ℚ) < R_SPECIFIC := by norm_num [R_SPECIFIC]
  positivity

/-- The unclamped ideal-gas volume as a constant over the air density. -/
theorem unclampedVolume_eq_div (m : BurstModel) (hT : ∀ h, 0 < m.temperature h)
    (hP : ∀ h, 0 < m.pressure h) (h : ℚ) :
    unclampedVolume m h
      = (m.n_gas * GAS_CONSTANT_R / R_SPECIFIC) / airDensity m h := by
  rw [unclampedVolume, airDensity]
  have h1 := (hT h).ne.symm
  have h2 := (hP h).ne.symm
  have h3 : (R_SPECIFIC : ℚ) ≠ 0 := by norm_num [R_SPECIFIC]
  field_simp
  ring

/-- If density strictly decreases with altitude, the unclamped ideal-gas
volume strictly increases. -/
theorem unclampedVolume_strictMono (m : BurstModel)
    (hT : ∀ h, 0 < m.temperature h) (hP : ∀ h, 0 < m.pressure h)
    (hanti : StrictAnti (airDensity m)) (hn : 0 < m.n_gas) :
    StrictMono (unclampedVolume m) := by
  intro h1 h2 h12
  rw [unclampedVolume_eq_div m hT hP h1, unclampedVolume_eq_div m hT hP h2]
  have hc : 0 < m.n_gas * GAS_CONSTANT_R / R_SPECIFIC := by
    have : (0:ℚ) < GAS_CONSTANT_R := by norm_num [GAS_CONSTANT_R]
    have h3 : (0:ℚ) < R_SPECIFIC := by norm_num [R_SPECIFIC]
    positivity
  exact div_lt_div_of_pos_left hc (airDensity_pos m hT hP h2) (hanti h12)

/-- Only an Ascending state can step to an Ascending state. -/
theorem burstStep_ascending_of (m : BurstModel) (s : BurstState)
    (hb : (burstStep m s).phase = Phase.Ascending) :
    s.phase = Phase.Ascending := by
  by_cases h1 : s.phase = Phase.Ascending
  · exact h1
  · exfalso
    rw [burstStep, if_neg h1] at hb
    by_cases h2 : s.phase = Phase.Descending
    · rw [if_pos h2] at hb
      by_cases h3 : s.altitude - m.descentRate * m.dt ≤ 0
      · rw [if_pos h3] at hb; exact Phase.noConfusion hb
      · rw [if_neg h3] at hb; exact Phase.noConfusion hb
    · rw [if_neg h2] at hb; exact h1 hb

/-- The step out of an Ascending state: its altitude and volume, and the
burst characterization (Descending next iff the clamped volume reached the
limit). -/
theorem burstStep_of_ascending (m : BurstModel) (s : BurstState)
    (hp : s.phase = Phase.Ascending) :
    (burstStep m s).altitude = s.altitude + m.ascentRate * m.dt ∧
    (burstStep m s).volume
      = min (unclampedVolume m (s.altitude + m.ascentRate * m.dt)) m.maxVolume ∧
    ((burstStep m s).phase = Phase.Descending ↔
      (burstStep m s).volume = m.maxVolume) ∧
    ((burstStep m s).phase = Phase.Ascending ∨
      (burstStep m s).phase = Phase.Descending) := by
  rw [burstStep, if_pos hp]
  by_cases hb : m.maxVolume
      ≤ min (unclampedVolume m (s.altitude + m.ascentRate * m.dt)) m.maxVolume
  · rw [if_pos hb]
    have hVeq : min (unclampedVolume m (s.altitude + m.ascentRate * m.dt))
        m.maxVolume = m.maxVolume := le_antisymm (min_le_right _ _) hb
    exact ⟨rfl, rfl, by simp [hVeq], Or.inr rfl⟩
  · rw [if_neg hb]
    refine ⟨rfl, rfl, ?_, Or.inl rfl⟩
    constructor
    · intro hcon; exact absurd hcon (by simp)
    · intro hveq; exact absurd hveq.ge hb

/-- Unfolding one step of the trajectory. -/
theorem burstTraj_succ (m : BurstModel) (s0 : BurstState) (k : ℕ) :
    burstTraj m s0 (k + 1) = burstStep m (burstTraj m s0 k) := by
  rw [burstTraj, burstTraj, Function.iterate_succ_apply']

/-- The Ascending-phase invariant is preserved along the trajectory: while
Ascending, the volume is the clamped ideal-gas volume and is strictly below
the limit. -/
theorem burstTraj_inv (m : BurstModel) (s0 : BurstState)
    (hvol : s0.volume = min (unclampedVolume m s0.altitude) m.maxVolume)
    (hlt : s0.volume < m.maxVolume) :
    ∀ k, (burstTraj m s0 k).phase = Phase.Ascending →
      (burstTraj m s0 k).volume
          = min (unclampedVolume m (burstTraj m s0 k).altitude) m.maxVolume ∧
      (burstTraj m s0 k).volume < m.maxVolume := by
  intro k
  induction k with
  | zero => intro _; exact ⟨hvol, hlt⟩
  | succ k ih =>
    intro hk
    rw [burstTraj_succ] at hk ⊢
    set s := burstTraj m s0 k with hs
    have hasc : s.phase = Phase.Ascending := burstStep_ascending_of m s hk
    obtain ⟨ha, hv, hiff, -⟩ := burstStep_of_ascending m s hasc
    constructor
    · rw [hv, ha]
    · rcases lt_or_eq_of_le (hv ▸ min_le_right
        (unclampedVolume m (s.altitude + m.ascentRate * m.dt)) m.maxVolume) with h | h
      · exact h
      · exact absurd (hiff.mpr h) (by rw [hk]; simp)

/-- Ascending is downward closed along the trajectory: if the state at a
later index is Ascending, so is every earlier one. -/
theorem burstTraj_ascending_of_le (m : BurstModel) (s0 : BurstState) :
    ∀ d j, (burstTraj m s0 (j + d)).phase = Phase.Ascending →
      (burstTraj m s0 j).phase = Phase.Ascending := by
  intro d
  induction d with
  | zero => intro j h; exact h
  | succ d ih =>
    intro j h
    have : (burstTraj m s0 (j + d)).phase = Phase.Ascending := by
      have heq : j + (d + 1) = (j + d) + 1 := by omega
      rw [heq, burstTraj_succ] at h
      exact burstStep_ascending_of m _ h
    exact ih j this

/-! ## Claim C2 -/

/-- Claim C2 (spec-modelled): in any run of the phase machine in which the
atmospheric density strictly decreases with altitude (temperature and
pressure positive, positive gas moles, positive ascent step, launch state
Ascending with clamped volume strictly below the limit):
(1) the gas volume strictly increases while the phase is Ascending;
(2) from an Ascending state, the next phase is Descending exactly when the
volume has reached the max-volume limit;
(3) the Ascending→Descending transition happens at most once; and
(4) before the transition step the volume is strictly below the limit
(the transition is at the *first* step the volume reaches the limit). -/
theorem burst_transition_exactly_once (m : BurstModel) (s0 : BurstState)
    (hT : ∀ h, 0 < m.temperature h) (hP : ∀ h, 0 < m.pressure h)
    (hanti : StrictAnti (airDensity m)) (hn : 0 < m.n_gas)
    (hadt : 0 < m.ascentRate * m.dt)
    (_hphase : s0.phase = Phase.Ascending)
    (hvol : s0.volume = min (unclampedVolume m s0.altitude) m.maxVolume)
    (hlt : s0.volume < m.maxVolume) :
    (∀ k, (burstTraj m s0 k).phase = Phase.Ascending →
      (burstTraj m s0 k).volume < (burstTraj m s0 (k + 1)).volume) ∧
    (∀ k, (burstTraj m s0 k).phase = Phase.Ascending →
      ((burstTraj m s0 (k + 1)).phase = Phase.Descending ↔
        (burstTraj m s0 (k + 1)).volume = m.maxVolume)) ∧
    (∀ i j, (burstTraj m s0 i).phase = Phase.Ascending →
      (burstTraj m s0 (i + 1)).phase = Phase.Descending →
      (burstTraj m s0 j).phase = Phase.Ascending →
      (burstTraj m s0 (j + 1)).phase = Phase.Descending → i = j) ∧
    (∀ i, (burstTraj m s0 i).phase = Phase.Ascending →
      (burstTraj m s0 (i + 1)).phase = Phase.Descending →
      ∀ j, j ≤ i → (burstTraj m s0 j).volume < m.maxVolume) := by
  have hmono := unclampedVolume_strictMono m hT hP hanti hn
  have hinv := burstTraj_inv m s0 hvol hlt
  have hsucc := burstTraj_succ m s0
  have hincr : ∀ k, (burstTraj m s0 k).phase = Phase.Ascending →
      (burstTraj m s0 k).volume < (burstTraj m s0 (k + 1)).volume := by
    intro k hk
    obtain ⟨hveq, hvlt⟩ := hinv k hk
    obtain ⟨-, hv, -, -⟩ := burstStep_of_ascending m (burstTraj m s0 k) hk
    rw [hsucc k, hv]
    refine lt_min ?_ hvlt
    calc (burstTraj m s0 k).volume
        ≤ unclampedVolume m (burstTraj m s0 k).altitude := hveq ▸ min_le_left _ _
      _ < unclampedVolume m
            ((burstTraj m s0 k).altitude + m.ascentRate * m.dt) :=
          hmono (by linarith)
  refine ⟨hincr, ?_, ?_, ?_⟩
  · intro k hk
    rw [hsucc k]
    exact (burstStep_of_ascending m (burstTraj m s0 k) hk).2.2.1
  · intro i j hiA hiD hjA hjD
    rcases lt_trichotomy i j with hij | hij | hij
    · exfalso
      have : (burstTraj m s0 (i + 1)).phase = Phase.Ascending := by
        have heq : j = (i + 1) + (j - (i + 1)) := by omega
        exact burstTraj_ascending_of_le m s0 (j - (i + 1)) (i + 1) (heq ▸ hjA)
      rw [this] at hiD
      exact Phase.noConfusion hiD
    · exact hij
    · exfalso
      have : (burstTraj m s0 (j + 1)).phase = Phase.Ascending := by
        have heq : i = (j + 1) + (i - (j + 1)) := by omega
        exact burstTraj_ascending_of_le m s0 (i - (j + 1)) (j + 1) (heq ▸ hiA)
      rw [this] at hjD
      exact Phase.noConfusion hjD
  · intro i hiA _ j hj
    have hjA : (burstTraj m s0 j).phase = Phase.Ascending := by
      have heq : i = j + (i - j) := by omega
      exact burstTraj_ascending_of_le m s0 (i - j) j (heq ▸ hiA)
    exact (hinv j hjA).2

/-! ## Claim C2: witness instantiation -/

/-- The witness pressure is positive everywhere. -/
theorem witnessPressure_pos (h : ℚ) : 0 < witnessPressure h := by
  rw [witnessPressure]
  by_cases hh : h < 0
  · rw [if_pos hh]; linarith
  · rw [if_neg hh]
    push_neg at hh
    positivity

/-- The witness pressure strictly decreases with altitude. -/
theorem witnessPressure_strictAnti : StrictAnti witnessPressure := by
  intro a b hab
  rw [witnessPressure, witnessPressure]
  by_cases hb : b < 0
  · rw [if_pos hb, if_pos (lt_trans hab hb)]
    linarith
  · rw [if_neg hb]
    push_neg at hb
    by_cases ha : a < 0
    · rw [if_pos ha]
      have h1 : 1 / (1 + b) ≤ 1 := by
        rw [div_le_one (by linarith)]
        linarith
      linarith
    · rw [if_neg ha]
      push_neg at ha
      exact one_div_lt_one_div_of_lt (by linarith) (by linarith)

/-- Density of the witness model strictly decreases with altitude. -/
theorem witnessDensity_strictAnti : StrictAnti (airDensity witnessModel) := by
  intro a b hab
  have h := witnessPressure_strictAnti hab
  rw [airDensity, airDensity]
  simp only [witnessModel, mul_one]
  have hR : (0:ℚ) < R_SPECIFIC := by norm_num [R_SPECIFIC]
  exact div_lt_div_of_pos_right h hR

/-- The witness launch volume is strictly below the limit. -/
theorem witnessInit_volume_lt : witnessInit.volume < witnessModel.maxVolume := by
  have h0 : unclampedVolume witnessModel 0 = GAS_CONSTANT_R := by
    rw [unclampedVolume]
    norm_num [witnessModel, witnessPressure]
  show min (unclampedVolume witnessModel 0) witnessModel.maxVolume
      < witnessModel.maxVolume
  rw [h0]
  rw [min_eq_left (by norm_num [GAS_CONSTANT_R, witnessModel])]
  norm_num [GAS_CONSTANT_R, witnessModel]

/-- Claim C2 (witness): the burst theorem applied to the concrete witness
model, whose density strictly decreases with altitude. -/
theorem burst_transition_exactly_once_witness :
    (0 : ℚ) < witnessModel.n_gas ∧
    witnessInit.phase = Phase.Ascending ∧
    witnessInit.volume < witnessModel.maxVolume ∧
    (∀ k, (burstTraj witnessModel witnessInit k).phase = Phase.Ascending →
      (burstTraj witnessModel witnessInit k).volume
        < (burstTraj witnessModel witnessInit (k + 1)).volume) :=
  ⟨by norm_num [witnessModel], rfl, witnessInit_volume_lt,
    (burst_transition_exactly_once witnessModel witnessInit
      (fun _ => by norm_num [witnessModel])
      (fun h => witnessPressure_pos h)
      witnessDensity_strictAnti
      (by norm_num [witnessModel])
      (by norm_num [witnessModel])
      rfl rfl witnessInit_volume_lt).1⟩

end BalloonSim
